import Mathlib

/-!
# kvdb: a command-line key-value store over one SQL table

Shallow embedding of `src/kvdb.c` and `src/kvdb.h`.

The program is a thin layer over four parameterised SQL statements run by the
SQLite engine against the table

    kv(key TEXT PRIMARY KEY, value TEXT, insert_ts TEXT, update_ts TEXT)

The engine itself is an external library. It is modelled here by what its
documented interface does for exactly the statements the program issues:
a table is a list of rows, a statement either is executed as one atomic step
or is refused by the engine (a fault of the environment: busy file, I/O error,
out of memory), and `strftime('%Y-%m-%d %H:%M:%fZ', 'now')` renders the clock
reading of the step that evaluates it.

A cell of `value`, `insert_ts` or `update_ts` holds a text or NULL. The program
stores NULL where the engine leaves a parameter unbound (a string beyond its
length limit) or cannot render the clock (a reading beyond year 9999), and
reading a NULL cell back hands a NULL pointer to `strdup` or `strncpy`, which
is undefined behaviour. Cells of other types, which no statement of this
program writes, are not represented.
-/

namespace Kvdb

/-! ## C strings and constants -/

/-- The content of a NUL-terminated C string: the characters before the terminator. -/
abbrev CStr := List Char

/-- The NUL character. -/
def NUL : Char := Char.ofNat 0

/-- `KVDB_RETURN_OK` of `kvdb.h`. -/
def KVDB_RETURN_OK : Nat := 0
/-- `KVDB_RETURN_ERROR` of `kvdb.h`. -/
def KVDB_RETURN_ERROR : Nat := 1
/-- `KVDB_TS_CHAR_LENGTH` of `kvdb.h`. -/
def KVDB_TS_CHAR_LENGTH : Nat := 24
/-- `KVDB_DB_FILENAME` of `kvdb.h`. -/
def KVDB_DB_FILENAME : CStr := "kvdb.db".toList

/-- `EXIT_SUCCESS` of `stdlib.h`. -/
def EXIT_SUCCESS : Nat := 0
/-- `EXIT_FAILURE` of `stdlib.h`. -/
def EXIT_FAILURE : Nat := 1

/-- `SQLITE_OK` of `sqlite3.h`. -/
def SQLITE_OK : Nat := 0
/-- `SQLITE_ERROR` of `sqlite3.h`; stands for whichever error code a refused call returns
(the program only compares result codes with `SQLITE_OK`, `SQLITE_ROW` and `SQLITE_DONE`). -/
def SQLITE_ERROR : Nat := 1
/-- `SQLITE_TOOBIG` of `sqlite3.h`. -/
def SQLITE_TOOBIG : Nat := 18
/-- `SQLITE_CONSTRAINT` of `sqlite3.h`. -/
def SQLITE_CONSTRAINT : Nat := 19
/-- `SQLITE_ROW` of `sqlite3.h`. -/
def SQLITE_ROW : Nat := 100
/-- `SQLITE_DONE` of `sqlite3.h`. -/
def SQLITE_DONE : Nat := 101

/-- `SQLITE_MAX_LENGTH`, the length limit of the engine for one string, at its default. -/
def SQLITE_MAX_LENGTH : Nat := 1000000000

/-- Width of `size_t` on the target. -/
def SIZE_BITS : Nat := 64

/-- Lexicographic order of lists, first difference decides, a proper initial part is smaller. -/
def lex_lt {α : Type} [LT α] [DecidableRel (fun (a b : α) => a < b)] : List α → List α → Bool
  | [], [] => false
  | [], _ :: _ => true
  | _ :: _, [] => false
  | a :: as, b :: bs => if a < b then true else if b < a then false else lex_lt as bs

/-- Order of strings as texts, character by character: `a` sorts before `b`. -/
def str_lt (a b : CStr) : Bool := lex_lt a b

/-! ## The clock and `strftime('%Y-%m-%d %H:%M:%fZ', 'now')` -/

/-- A reading of the UTC clock, broken down, at millisecond precision. -/
structure DateTime where
  year : Nat
  month : Nat
  day : Nat
  hour : Nat
  minute : Nat
  second : Nat
  millis : Nat
  deriving DecidableEq, Repr

/-- The clock readings the engine can render: years 0000 to 9999, every other field in
its calendar range. -/
def DateTime.valid (t : DateTime) : Prop :=
  t.year ≤ 9999 ∧ 1 ≤ t.month ∧ t.month ≤ 12 ∧ 1 ≤ t.day ∧ t.day ≤ 31 ∧
  t.hour ≤ 23 ∧ t.minute ≤ 59 ∧ t.second ≤ 59 ∧ t.millis ≤ 999

instance (t : DateTime) : Decidable t.valid := by
  unfold DateTime.valid; infer_instance

/-- The fields of a clock reading, most significant first. -/
def DateTime.fields (t : DateTime) : List Nat :=
  [t.year, t.month, t.day, t.hour, t.minute, t.second, t.millis]

/-- Clock reading `a` is earlier than clock reading `b`. -/
def DateTime.before (a b : DateTime) : Bool := lex_lt a.fields b.fields

/-- The decimal digit character of `d mod 10`. -/
def digit_char (d : Nat) : Char :=
  match d % 10 with
  | 0 => '0' | 1 => '1' | 2 => '2' | 3 => '3' | 4 => '4'
  | 5 => '5' | 6 => '6' | 7 => '7' | 8 => '8' | _ => '9'

/-- Two decimal digits, zero padded: what `%02d` prints for `n < 100`. -/
def pad2 (n : Nat) : CStr := [digit_char (n / 10), digit_char n]
/-- Three decimal digits, zero padded: what `%03d` prints for `n < 1000`. -/
def pad3 (n : Nat) : CStr := [digit_char (n / 100), digit_char (n / 10), digit_char n]
/-- Four decimal digits, zero padded: what `%04d` prints for `n < 10000`. -/
def pad4 (n : Nat) : CStr :=
  [digit_char (n / 1000), digit_char (n / 100), digit_char (n / 10), digit_char n]

/-- The text the format `'%Y-%m-%d %H:%M:%fZ'` gives for a clock reading in range:
`%Y` is the year in four digits, `%m %d %H %M` are two digits each, `%f` is the seconds
with three fractional digits (`SS.SSS`), and `Z` is literal. -/
def strftime_text (t : DateTime) : CStr :=
  pad4 t.year ++ '-' :: pad2 t.month ++ '-' :: pad2 t.day ++ ' ' :: pad2 t.hour ++
    ':' :: pad2 t.minute ++ ':' :: pad2 t.second ++ '.' :: pad3 t.millis ++ ['Z']

/-- The value of `strftime('%Y-%m-%d %H:%M:%fZ', 'now')` at clock reading `t`: the text,
or NULL (`none`) for a reading the engine cannot render, such as one beyond year 9999. -/
def strftime_now (t : DateTime) : Option CStr :=
  if t.valid then some (strftime_text t) else none

/-! ## The table -/

/-- One row of table `kv` (`kvdb_create_table_in_db`, lines 26-32). The key of a table
`WITHOUT ROWID` is never NULL; the other cells hold a text or NULL (`none`). -/
structure Row where
  key : CStr
  value : Option CStr
  insert_ts : Option CStr
  update_ts : Option CStr
  deriving DecidableEq, Repr

/-- The rows of table `kv`. -/
abbrev Table := List Row

/-- `sqlite3_bind_text(stmt, i, s, -1, SQLITE_STATIC)`: the result code, and the value of
the parameter afterwards. A string beyond the length limit is refused with `SQLITE_TOOBIG`
and the parameter stays NULL (`none`). -/
def sqlite3_bind_text (s : CStr) : Nat × Option CStr :=
  if s.length ≤ SQLITE_MAX_LENGTH then (SQLITE_OK, some s) else (SQLITE_TOOBIG, none)

/-- The row `... FROM kv WHERE key = ?` matches for a parameter value; NULL matches none. -/
def where_key (db : Table) : Option CStr → Option Row
  | some k => db.find? (fun r => decide (r.key = k))
  | none => none

/-- The row the SELECT statements of lines 66 and 102 yield for the key string `key`,
bound as lines 72 and 107 bind it. -/
def select_row (db : Table) (key : CStr) : Option Row :=
  where_key db (sqlite3_bind_text key).2

/-- The statement of `kvdb_set_key` (lines 44-47): `INSERT INTO kv(key, value) VALUES (?, ?)`
gives a new row both timestamp defaults, `ON CONFLICT (key) DO UPDATE SET value = excluded.value,
update_ts = strftime(...)` rewrites `value` and `update_ts` of the row holding the key.
`now` is the value of `strftime(...)` in this step. -/
def upsert (now : Option CStr) (key : CStr) (value : Option CStr) : Table → Table
  | [] => [{ key := key, value := value, insert_ts := now, update_ts := now }]
  | r :: rs =>
    if r.key = key then { r with value := value, update_ts := now } :: rs
    else r :: upsert now key value rs

/-- The statement of `kvdb_del_key` (line 83): `DELETE FROM kv WHERE key = ?`, for a
parameter value; NULL matches no row. -/
def delete_rows (db : Table) : Option CStr → Table
  | some k => db.filter (fun r => decide (r.key ≠ k))
  | none => db

/-! ## The environment of one API call -/

/-- What the environment answers during one call of the API. -/
structure Env where
  /-- `sqlite3_prepare_v2` compiles the statement (else it returns an error code). -/
  prepare_ok : Bool
  /-- `sqlite3_step` runs the statement (else it returns an error code and the table
  is as before). -/
  step_ok : Bool
  /-- `strdup` finds memory (else it returns NULL). -/
  strdup_ok : Bool
  /-- The clock reading `'now'` of the statement. -/
  now : DateTime
  deriving DecidableEq, Repr

/-- Result code of `sqlite3_prepare_v2`. -/
def sqlite3_prepare_v2 (e : Env) : Nat :=
  if e.prepare_ok then SQLITE_OK else SQLITE_ERROR

/-- `sqlite3_step` on the upsert statement with its two parameter values: result code and
table afterwards. A NULL key breaks the NOT NULL constraint of the primary key. -/
def sqlite3_step_upsert (e : Env) (db : Table) (key value : Option CStr) : Nat × Table :=
  if e.step_ok then
    match key with
    | some k => (SQLITE_DONE, upsert (strftime_now e.now) k value db)
    | none => (SQLITE_CONSTRAINT, db)
  else (SQLITE_ERROR, db)

/-- `sqlite3_step` on a `SELECT ... WHERE key = ?` with its parameter value: result code
and the current row. -/
def sqlite3_step_select (e : Env) (db : Table) (key : Option CStr) : Nat × Option Row :=
  if e.step_ok then
    match where_key db key with
    | some r => (SQLITE_ROW, some r)
    | none => (SQLITE_DONE, none)
  else (SQLITE_ERROR, none)

/-- `sqlite3_step` on the delete statement with its parameter value: result code and table
afterwards. -/
def sqlite3_step_delete (e : Env) (db : Table) (key : Option CStr) : Nat × Table :=
  if e.step_ok then (SQLITE_DONE, delete_rows db key) else (SQLITE_ERROR, db)

/-- `strdup` on the pointer `sqlite3_column_text` returns: a copy of the text or NULL when
memory is short; `none` is the undefined call on the NULL pointer of a NULL cell. -/
def strdup (e : Env) : Option CStr → Option (Option CStr)
  | some s => some (if e.strdup_ok then some s else none)
  | none => none

/-! ## The API of `kvdb.c` -/

/-- `kvdb_set_key` (lines 42-61): return code and table afterwards. The result codes of
the two `sqlite3_bind_text` calls are discarded, as lines 52-53 discard them. -/
def kvdb_set_key (e : Env) (db : Table) (key value : CStr) : Nat × Table :=
  if sqlite3_prepare_v2 e ≠ SQLITE_OK then (KVDB_RETURN_ERROR, db)
  else
    let p1 := (sqlite3_bind_text key).2
    let p2 := (sqlite3_bind_text value).2
    let r := sqlite3_step_upsert e db p1 p2
    if r.1 ≠ SQLITE_DONE then (KVDB_RETURN_ERROR, r.2)
    else (KVDB_RETURN_OK, r.2)

/-- `kvdb_get_key_value` (lines 64-78): the returned pointer, `some none` for NULL;
`none` when the call is undefined (`strdup` of the NULL pointer of a NULL cell). -/
def kvdb_get_key_value (e : Env) (db : Table) (key : CStr) : Option (Option CStr) :=
  if sqlite3_prepare_v2 e ≠ SQLITE_OK then some none
  else
    let p1 := (sqlite3_bind_text key).2
    let r := sqlite3_step_select e db p1
    if r.1 = SQLITE_ROW then
      match r.2 with
      | some row => strdup e row.value
      | none => some none
    else some none

/-- `kvdb_del_key` (lines 81-94): return code and table afterwards. -/
def kvdb_del_key (e : Env) (db : Table) (key : CStr) : Nat × Table :=
  if sqlite3_prepare_v2 e ≠ SQLITE_OK then (KVDB_RETURN_ERROR, db)
  else
    let p1 := (sqlite3_bind_text key).2
    let r := sqlite3_step_delete e db p1
    if r.1 ≠ SQLITE_DONE then (KVDB_RETURN_ERROR, r.2)
    else (KVDB_RETURN_OK, r.2)

/-- The `n` bytes `strncpy(dst, src, n)` stores: the string, cut at `n`, then NUL padding. -/
def strncpy (src : CStr) (n : Nat) : List Char :=
  src.take n ++ List.replicate (n - src.length) NUL

/-- `size - 1` in `size_t` arithmetic. -/
def size_minus_one (size : Nat) : Nat := (size + 2 ^ SIZE_BITS - 1) % 2 ^ SIZE_BITS

/-- The bytes stored from the start of a buffer by `strncpy(buf, src, size - 1);
buf[size - 1] = 0` (lines 110-111 and 114-115); for `size` at least 1 they fill the
`size` bytes of the buffer. -/
def copy_to_buffer (src : CStr) (size : Nat) : List Char :=
  strncpy src (size_minus_one size) ++ [NUL]

/-- The C string a buffer holds: its bytes up to the first NUL. -/
def c_string (buf : List Char) : CStr := buf.takeWhile (fun c => decide (c ≠ NUL))

/-- `kvdb_get_key_ts` (lines 97-123): return code, and the bytes of the two buffers when
they were written (`none`: both left untouched); the whole result is `none` when the call
is undefined (`strncpy` from the NULL pointer of a NULL cell). -/
def kvdb_get_key_ts (e : Env) (db : Table) (key : CStr)
    (insert_ts_size update_ts_size : Nat) : Option (Nat × Option (List Char × List Char)) :=
  if sqlite3_prepare_v2 e ≠ SQLITE_OK then some (KVDB_RETURN_ERROR, none)
  else
    let p1 := (sqlite3_bind_text key).2
    let r := sqlite3_step_select e db p1
    if r.1 = SQLITE_ROW then
      match r.2 with
      | some row =>
        match row.insert_ts, row.update_ts with
        | some insert_ts_column, some update_ts_column =>
          some (KVDB_RETURN_OK,
            some (copy_to_buffer insert_ts_column insert_ts_size,
                  copy_to_buffer update_ts_column update_ts_size))
        | _, _ => none
      | none => some (KVDB_RETURN_ERROR, none)
    else some (KVDB_RETURN_ERROR, none)

/-! ## The command line -/

/-- The store operations `main` performs, in the order of the calls. -/
inductive Op where
  | open_db
  | create_table
  | set_key
  | get_key_value
  | del_key
  | get_key_ts
  | close_db
  deriving DecidableEq, Repr

/-- What the environment of one run of `main` holds and answers. -/
structure World where
  /-- The rows of table `kv` in the database file; `none` when the file has no such table. -/
  file : Option Table
  /-- `sqlite3_open` succeeds. -/
  open_ok : Bool
  /-- `sqlite3_exec` of the `CREATE TABLE IF NOT EXISTS` statement succeeds. -/
  create_ok : Bool
  /-- The environment of the one API call of the verb. -/
  env : Env
  deriving DecidableEq, Repr

/-- What one run of `main` leaves behind. -/
structure Outcome where
  exit_code : Nat
  /-- The texts written to `stdout`, one per `fprintf` call. -/
  stdout : List CStr
  /-- The texts written to `stderr`, one per `fprintf` call. -/
  stderr : List CStr
  /-- The table `kv` in the database file afterwards. -/
  file : Option Table
  /-- The store operations performed. -/
  ops : List Op
  deriving DecidableEq, Repr

/-- How a run of `main` ends: it leaves with an outcome, or it runs into the undefined
read of a NULL cell (`strdup` or `strncpy` on a NULL pointer). -/
inductive Ending where
  | exited (o : Outcome)
  | undefined
  deriving DecidableEq, Repr

/-- The exit code of a run that leaves with an outcome. -/
def Ending.exit_code : Ending → Option Nat
  | Ending.exited o => some o.exit_code
  | Ending.undefined => none

/-- `kvdb_open_db` (lines 8-13). -/
def kvdb_open_db (w : World) : Nat :=
  if (if w.open_ok then SQLITE_OK else SQLITE_ERROR) ≠ SQLITE_OK then KVDB_RETURN_ERROR
  else KVDB_RETURN_OK

/-- `kvdb_create_table_in_db` (lines 24-39): return code and the table in the file afterwards;
`CREATE TABLE IF NOT EXISTS` keeps an existing table and creates an empty one otherwise. -/
def kvdb_create_table_in_db (w : World) : Nat × Option Table :=
  if (if w.create_ok then SQLITE_OK else SQLITE_ERROR) ≠ SQLITE_OK then
    (KVDB_RETURN_ERROR, w.file)
  else (KVDB_RETURN_OK, some (w.file.getD []))

/-- `strcmp`: zero exactly when the strings are equal, else the sign of the first difference. -/
def strcmp (a b : CStr) : Int :=
  if a = b then 0 else if str_lt a b then -1 else 1

/-- The read of `argv[i]`, where `argc = argv.length` and `argv[argc]` is NULL:
`none` when `i` is outside the array, `some none` for the NULL pointer. -/
def argv_at (argv : List CStr) (i : Nat) : Option (Option CStr) :=
  if i < argv.length then some argv[i]?
  else if i = argv.length then some none
  else none

/-- The read of `argv[i]` as a string: `none` when outside the array or NULL. -/
def argv_string (argv : List CStr) (i : Nat) : Option CStr :=
  match argv_at argv i with
  | some (some s) => some s
  | _ => none

/-- What `%s` prints for a string pointer (glibc prints `(null)` for NULL). -/
def fmt_s (p : Option CStr) : CStr := p.getD "(null)".toList

/-- `usage` (lines 125-132): the six texts written to `stderr`. -/
def usage (exec_name : Option CStr) : List CStr :=
  [ "Usage: ".toList ++ fmt_s exec_name ++ " <action> [<key>] [<value>]\n".toList,
    "Actions: \n".toList,
    "\t set <key> <value>: Associate <key> with <value>, record timestamp of creation and/or last update\n".toList,
    "\t get <key>: Fetch the value associated with <key>\n".toList,
    "\t del <key>: Remove <key> from the database\n".toList,
    "\t ts <key>: Fetch the timestamps when <key> was first and last set\n".toList ]

/-- The condition of lines 141-145, with the short-circuit order of `||` and `&&`:
`some true` when usage is shown, `none` when a read of `argv` leaves the array or
`strcmp` receives NULL. -/
def usage_check (argv : List CStr) : Option Bool :=
  let argc := argv.length
  if argc ≠ 4 ∧ argc ≠ 3 then some true
  else do
    let not_set ←
      if argc = 4 then (argv_string argv 1).map (fun a => decide (strcmp a "set".toList ≠ 0))
      else some false
    if not_set then some true
    else if argc = 3 then do
      let g ← argv_string argv 1
      if strcmp g "get".toList ≠ 0 then
        let d ← argv_string argv 1
        if strcmp d "del".toList ≠ 0 then
          let t ← argv_string argv 1
          some (decide (strcmp t "ts".toList ≠ 0))
        else some false
      else some false
    else some false

/-- Line 151. -/
def msg_open_fail (p : CStr) : CStr :=
  p ++ ": Could not open database '".toList ++ KVDB_DB_FILENAME ++ "'\n".toList
/-- Line 156. -/
def msg_create_fail (p : CStr) : CStr :=
  p ++ ": Could not create/access table in database '".toList ++ KVDB_DB_FILENAME ++ "'\n".toList
/-- Line 163. -/
def msg_set_ok (p k v : CStr) : CStr :=
  p ++ ": Set key '".toList ++ k ++ "' value to '".toList ++ v ++ "'. SUCCESS\n".toList
/-- Line 165. -/
def msg_set_fail (p k v : CStr) : CStr :=
  p ++ ": Set key '".toList ++ k ++ "' value to '".toList ++ v ++ "'. FAIL\n".toList
/-- Line 174. -/
def msg_get_value (p k v : CStr) : CStr :=
  p ++ ": Get key '".toList ++ k ++ "' returned value '".toList ++ v ++ "'. SUCCESS\n".toList
/-- Line 176. -/
def msg_get_no_value (p k : CStr) : CStr :=
  p ++ ": Get key '".toList ++ k ++ "' returned no value. SUCCESS\n".toList
/-- Line 182. -/
def msg_del_ok (p k : CStr) : CStr :=
  p ++ ": Del key '".toList ++ k ++ "'. SUCCESS\n".toList
/-- Line 184. -/
def msg_del_fail (p k : CStr) : CStr :=
  p ++ ": Del key '".toList ++ k ++ "'. FAIL\n".toList
/-- Line 192. -/
def msg_ts_ok (p k i u : CStr) : CStr :=
  p ++ ": Get key '".toList ++ k ++ "' timestamps: It was first set at ".toList ++ i ++
    " and last at ".toList ++ u ++ ". SUCCESS\n".toList
/-- Line 194. -/
def msg_ts_fail (p k : CStr) : CStr :=
  p ++ ": Get key '".toList ++ k ++ "' not found, no timestamps. FAIL\n".toList

/-- The state of a run of `main` between two verb blocks. -/
structure Run where
  db : Table
  out : List CStr
  ops : List Op
  deriving DecidableEq, Repr

/-- Lines 199-200: close and leave with `EXIT_SUCCESS`. -/
def verb_end (st : Run) : Outcome :=
  { exit_code := EXIT_SUCCESS, stdout := st.out, stderr := [], file := some st.db,
    ops := st.ops ++ [Op.close_db] }

/-- An error branch of a verb block: one text to a stream, close, `EXIT_FAILURE`. -/
def verb_fail (st : Run) (op : Op) (db : Table) (to_stderr : Bool) (msg : CStr) : Outcome :=
  { exit_code := EXIT_FAILURE,
    stdout := if to_stderr then st.out else st.out ++ [msg],
    stderr := if to_stderr then [msg] else [],
    file := some db, ops := st.ops ++ [op, Op.close_db] }

/-- The `ts` block (lines 190-198), then lines 199-200. -/
def verb_ts (e : Env) (argv : List CStr) (st : Run) : Option Ending := do
  let a1 ← argv_string argv 1
  if strcmp a1 "ts".toList = 0 then
    let p ← argv_at argv 0
    let k ← argv_string argv 2
    match kvdb_get_key_ts e st.db k KVDB_TS_CHAR_LENGTH KVDB_TS_CHAR_LENGTH with
    | none => some Ending.undefined
    | some r =>
      if r.1 = KVDB_RETURN_OK then
        let bufs ← r.2
        some (Ending.exited (verb_end { st with
          out := st.out ++ [msg_ts_ok (fmt_s p) k (c_string bufs.1) (c_string bufs.2)],
          ops := st.ops ++ [Op.get_key_ts] }))
      else
        some (Ending.exited
          (verb_fail st Op.get_key_ts st.db false (msg_ts_fail (fmt_s p) k)))
  else some (Ending.exited (verb_end st))

/-- The `del` block (lines 180-188), then the rest of `main`. -/
def verb_del (e : Env) (argv : List CStr) (st : Run) : Option Ending := do
  let a1 ← argv_string argv 1
  if strcmp a1 "del".toList = 0 then
    let p ← argv_at argv 0
    let k ← argv_string argv 2
    let r := kvdb_del_key e st.db k
    if r.1 = KVDB_RETURN_OK then
      verb_ts e argv { db := r.2, out := st.out ++ [msg_del_ok (fmt_s p) k],
                       ops := st.ops ++ [Op.del_key] }
    else
      some (Ending.exited (verb_fail st Op.del_key r.2 true (msg_del_fail (fmt_s p) k)))
  else verb_ts e argv st

/-- The `get` block (lines 171-178), then the rest of `main`. -/
def verb_get (e : Env) (argv : List CStr) (st : Run) : Option Ending := do
  let a1 ← argv_string argv 1
  if strcmp a1 "get".toList = 0 then
    let p ← argv_at argv 0
    let k ← argv_string argv 2
    match kvdb_get_key_value e st.db k with
    | none => some Ending.undefined
    | some (some key_value) =>
      verb_del e argv { st with out := st.out ++ [msg_get_value (fmt_s p) k key_value],
                                ops := st.ops ++ [Op.get_key_value] }
    | some none =>
      verb_del e argv { st with out := st.out ++ [msg_get_no_value (fmt_s p) k],
                                ops := st.ops ++ [Op.get_key_value] }
  else verb_del e argv st

/-- The `set` block (lines 161-169), then the rest of `main`. -/
def verb_set (e : Env) (argv : List CStr) (st : Run) : Option Ending := do
  let a1 ← argv_string argv 1
  if strcmp a1 "set".toList = 0 then
    let p ← argv_at argv 0
    let k ← argv_string argv 2
    let v ← argv_string argv 3
    let r := kvdb_set_key e st.db k v
    if r.1 = KVDB_RETURN_OK then
      verb_get e argv { db := r.2, out := st.out ++ [msg_set_ok (fmt_s p) k v],
                        ops := st.ops ++ [Op.set_key] }
    else
      some (Ending.exited (verb_fail st Op.set_key r.2 true (msg_set_fail (fmt_s p) k v)))
  else verb_get e argv st

/-- `main` (lines 134-201); `none` when a read of `argv` leaves the array, `strcmp`
receives NULL, or an unwritten buffer is printed. -/
def main (w : World) (argv : List CStr) : Option Ending := do
  let show_usage ← usage_check argv
  let p ← argv_at argv 0
  if show_usage then
    some (Ending.exited
      { exit_code := EXIT_FAILURE, stdout := [], stderr := usage p, file := w.file, ops := [] })
  else if kvdb_open_db w ≠ KVDB_RETURN_OK then
    some (Ending.exited
      { exit_code := EXIT_FAILURE, stdout := [], stderr := [msg_open_fail (fmt_s p)],
        file := w.file, ops := [Op.open_db] })
  else
    let c := kvdb_create_table_in_db w
    if c.1 ≠ KVDB_RETURN_OK then
      some (Ending.exited
        { exit_code := EXIT_FAILURE, stdout := [], stderr := [msg_create_fail (fmt_s p)],
          file := c.2, ops := [Op.open_db, Op.create_table, Op.close_db] })
    else
      verb_set w.env argv
        { db := c.2.getD [], out := [], ops := [Op.open_db, Op.create_table] }

/-! ## Outcomes used to state properties of `main` -/

/-- What lines 150-159 of `main` amount to: the outcome of a run that stops at the open or
at the schema statement, `none` when the run goes on to the verb blocks. -/
def early_exit (w : World) (p : CStr) : Option Outcome :=
  if w.open_ok = false then
    some { exit_code := EXIT_FAILURE, stdout := [], stderr := [msg_open_fail p],
           file := w.file, ops := [Op.open_db] }
  else if w.create_ok = false then
    some { exit_code := EXIT_FAILURE, stdout := [], stderr := [msg_create_fail p],
           file := w.file, ops := [Op.open_db, Op.create_table, Op.close_db] }
  else none

/-! ## Timestamp formats -/

/-- A text has the shape of a format pattern: each of the letters `Y M D H S s` of the
pattern stands for one decimal digit, every other character of the pattern for itself. -/
def matches_format : CStr → CStr → Bool
  | [], [] => true
  | p :: ps, c :: cs =>
    (if p ∈ ['Y', 'M', 'D', 'H', 'S', 's'] then c.isDigit else c == p) && matches_format ps cs
  | _, _ => false

/-- The timestamp format the schema statement produces and the specification names. -/
def TS_FORMAT : CStr := "YYYY-MM-DD HH:MM:SS.sssZ".toList

/-- The timestamp format without the `Z` suffix. -/
def TS_FORMAT_NO_Z : CStr := "YYYY-MM-DD HH:MM:SS.sss".toList

/-! ## The argument contract -/

/-- The invocations the specification accepts: exactly three arguments after the program
name with verb `set`, or exactly two with verb `get`, `del` or `ts`. -/
def accepted (argv : List CStr) : Prop :=
  (argv.length = 4 ∧ argv[1]? = some "set".toList) ∨
  (argv.length = 3 ∧ (argv[1]? = some "get".toList ∨ argv[1]? = some "del".toList ∨
    argv[1]? = some "ts".toList))

/-! ## Sequences of calls -/

/-- A sequence of `kvdb_set_key` calls, each with its environment, key and value:
the table after the last call. -/
def set_calls (db : Table) : List (Env × CStr × CStr) → Table
  | [] => db
  | c :: cs => set_calls (kvdb_set_key c.1 db c.2.1 c.2.2).2 cs

/-! ## Sample inputs -/

/-- A clock reading. -/
def clock_a : DateTime := ⟨2024, 1, 2, 3, 4, 5, 678⟩
/-- The clock reading one millisecond after `clock_a`. -/
def clock_b : DateTime := ⟨2024, 1, 2, 3, 4, 5, 679⟩
/-- A clock reading in year 10000. -/
def clock_far : DateTime := ⟨10000, 1, 1, 0, 0, 0, 0⟩
/-- A value one character longer than the length limit of the engine. -/
def long_value : CStr := List.replicate (SQLITE_MAX_LENGTH + 1) 'v'
/-- The row `set a 1` creates at `clock_a`. -/
def row_a1 : Row :=
  { key := "a".toList, value := some "1".toList,
    insert_ts := some "2024-01-02 03:04:05.678Z".toList,
    update_ts := some "2024-01-02 03:04:05.678Z".toList }
/-- The row of key `a` after `set a 2` at `clock_b` on top of `row_a1`. -/
def row_a2 : Row :=
  { key := "a".toList, value := some "2".toList,
    insert_ts := some "2024-01-02 03:04:05.678Z".toList,
    update_ts := some "2024-01-02 03:04:05.679Z".toList }
/-- An environment in which every call is served, at clock reading `t`. -/
def env_ok (t : DateTime) : Env :=
  { prepare_ok := true, step_ok := true, strdup_ok := true, now := t }
/-- An environment in which `sqlite3_prepare_v2` is refused. -/
def env_prepare_fails : Env :=
  { prepare_ok := false, step_ok := true, strdup_ok := true, now := clock_b }
/-- A run in which the file opens, the schema statement runs and the verb call is served. -/
def world_ok (file : Option Table) (t : DateTime) : World :=
  { file := file, open_ok := true, create_ok := true, env := env_ok t }
/-- The table after `set a 1` on an empty table at `clock_a`. -/
def table_a1 : Table := (kvdb_set_key (env_ok clock_a) [] "a".toList "1".toList).2

end Kvdb

/-! # Properties -/

namespace Kvdb

/-! ## The table statements -/

theorem bind_within (s : CStr) (h : s.length ≤ SQLITE_MAX_LENGTH) :
    sqlite3_bind_text s = (SQLITE_OK, some s) := by
  simp [sqlite3_bind_text, h]

theorem bind_beyond (s : CStr) (h : ¬ s.length ≤ SQLITE_MAX_LENGTH) :
    sqlite3_bind_text s = (SQLITE_TOOBIG, none) := by
  simp [sqlite3_bind_text, h]

theorem select_row_within (db : Table) (key : CStr) (h : key.length ≤ SQLITE_MAX_LENGTH) :
    select_row db key = db.find? (fun r => decide (r.key = key)) := by
  simp [select_row, bind_within key h, where_key]

theorem select_row_beyond (db : Table) (key : CStr) (h : ¬ key.length ≤ SQLITE_MAX_LENGTH) :
    select_row db key = none := by
  simp [select_row, bind_beyond key h, where_key]

theorem select_row_upsert_self (now : Option CStr) (key : CStr) (value : Option CStr)
    (db : Table) (hk : key.length ≤ SQLITE_MAX_LENGTH) :
    select_row (upsert now key value db) key =
      some (match select_row db key with
        | some r => { r with value := value, update_ts := now }
        | none => { key := key, value := value, insert_ts := now, update_ts := now }) := by
  rw [select_row_within _ _ hk, select_row_within _ _ hk]
  induction db with
  | nil => simp [upsert]
  | cons r rs ih =>
    by_cases h : r.key = key
    · simp [upsert, h]
    · simp [upsert, h, ih]

theorem select_row_upsert_other (now : Option CStr) (key : CStr) (value : Option CStr)
    (key' : CStr) (db : Table) (h : key' ≠ key) :
    select_row (upsert now key value db) key' = select_row db key' := by
  by_cases hl : key'.length ≤ SQLITE_MAX_LENGTH
  · rw [select_row_within _ _ hl, select_row_within _ _ hl]
    induction db with
    | nil => simp [upsert, h.symm]
    | cons r rs ih =>
      by_cases hk : r.key = key
      · have hk' : ¬ r.key = key' := fun h' => h (h'.symm.trans hk)
        simp [upsert, hk, hk', h.symm]
      · by_cases hk' : r.key = key'
        · simp [upsert, hk, hk', h]
        · simp [upsert, hk, hk', ih]
  · rw [select_row_beyond _ _ hl, select_row_beyond _ _ hl]

theorem select_row_delete_self (key : CStr) (db : Table) :
    select_row (delete_rows db (sqlite3_bind_text key).2) key = none := by
  by_cases hl : key.length ≤ SQLITE_MAX_LENGTH
  · rw [select_row_within _ _ hl, bind_within key hl]
    simp [delete_rows, List.find?_eq_none]
  · exact select_row_beyond _ _ hl

theorem delete_rows_absent (key : CStr) (db : Table) (h : select_row db key = none) :
    delete_rows db (sqlite3_bind_text key).2 = db := by
  by_cases hl : key.length ≤ SQLITE_MAX_LENGTH
  · rw [select_row_within _ _ hl, List.find?_eq_none] at h
    rw [bind_within key hl]
    simp only [delete_rows, List.filter_eq_self]
    intro r hr
    simpa using h r hr
  · rw [bind_beyond key hl]
    rfl

theorem upsert_keys (now : Option CStr) (key : CStr) (value : Option CStr) (db : Table) :
    (upsert now key value db).map Row.key =
      if key ∈ db.map Row.key then db.map Row.key else db.map Row.key ++ [key] := by
  induction db with
  | nil => simp [upsert]
  | cons r rs ih =>
    by_cases h : r.key = key
    · simp [upsert, h]
    · have h' : ¬ key = r.key := fun hk => h hk.symm
      simp only [upsert, h, if_false, List.map_cons, ih, List.mem_cons, h', false_or]
      split_ifs <;> simp

/-- The statements keep the PRIMARY KEY constraint: no two rows with the same key. -/
theorem primary_key_kept (now : Option CStr) (key : CStr) (value param : Option CStr)
    (db : Table) (h : (db.map Row.key).Nodup) :
    ((upsert now key value db).map Row.key).Nodup ∧
    ((delete_rows db param).map Row.key).Nodup := by
  constructor
  · rw [upsert_keys]
    split_ifs with hk
    · exact h
    · exact List.Nodup.append h (List.nodup_singleton key) (by simpa using hk)
  · cases param with
    | none => exact h
    | some k => exact List.Nodup.sublist (List.Sublist.map _ (List.filter_sublist db)) h

/-! ## The API calls -/

theorem kvdb_set_key_eq (e : Env) (db : Table) (key value : CStr) :
    kvdb_set_key e db key value =
      if e.prepare_ok = true ∧ e.step_ok = true ∧ key.length ≤ SQLITE_MAX_LENGTH then
        (KVDB_RETURN_OK, upsert (strftime_now e.now) key (sqlite3_bind_text value).2 db)
      else (KVDB_RETURN_ERROR, db) := by
  by_cases hl : key.length ≤ SQLITE_MAX_LENGTH
  · cases hp : e.prepare_ok <;> cases hs : e.step_ok <;>
      simp [kvdb_set_key, sqlite3_prepare_v2, sqlite3_step_upsert, hp, hs, hl, SQLITE_OK,
        SQLITE_ERROR, SQLITE_DONE, bind_within key hl]
  · cases hp : e.prepare_ok <;> cases hs : e.step_ok <;>
      simp [kvdb_set_key, sqlite3_prepare_v2, sqlite3_step_upsert, hp, hs, hl, SQLITE_OK,
        SQLITE_ERROR, SQLITE_DONE, SQLITE_CONSTRAINT, bind_beyond key hl]

theorem kvdb_del_key_eq (e : Env) (db : Table) (key : CStr) :
    kvdb_del_key e db key =
      if e.prepare_ok = true ∧ e.step_ok = true then
        (KVDB_RETURN_OK, delete_rows db (sqlite3_bind_text key).2)
      else (KVDB_RETURN_ERROR, db) := by
  cases hp : e.prepare_ok <;> cases hs : e.step_ok <;>
    simp [kvdb_del_key, sqlite3_prepare_v2, sqlite3_step_delete, hp, hs, SQLITE_OK,
      SQLITE_ERROR, SQLITE_DONE]

theorem kvdb_get_key_value_eq (e : Env) (db : Table) (key : CStr) :
    kvdb_get_key_value e db key =
      if e.prepare_ok = true ∧ e.step_ok = true then
        match select_row db key with
        | some row => strdup e row.value
        | none => some none
      else some none := by
  cases hp : e.prepare_ok <;> cases hs : e.step_ok <;>
    simp [kvdb_get_key_value, sqlite3_prepare_v2, sqlite3_step_select, hp, hs,
      SQLITE_OK, SQLITE_ERROR, SQLITE_DONE, SQLITE_ROW, select_row]
  cases hr : where_key db (sqlite3_bind_text key).2 <;> simp

theorem kvdb_get_key_ts_eq (e : Env) (db : Table) (key : CStr) (n m : Nat) :
    kvdb_get_key_ts e db key n m =
      if e.prepare_ok = true ∧ e.step_ok = true then
        match select_row db key with
        | some row =>
          match row.insert_ts, row.update_ts with
          | some i, some u =>
            some (KVDB_RETURN_OK, some (copy_to_buffer i n, copy_to_buffer u m))
          | _, _ => none
        | none => some (KVDB_RETURN_ERROR, none)
      else some (KVDB_RETURN_ERROR, none) := by
  cases hp : e.prepare_ok <;> cases hs : e.step_ok <;>
    simp [kvdb_get_key_ts, sqlite3_prepare_v2, sqlite3_step_select, hp, hs,
      SQLITE_OK, SQLITE_ERROR, SQLITE_DONE, SQLITE_ROW, select_row]
  cases hr : where_key db (sqlite3_bind_text key).2 <;> simp

/-- A call of `kvdb_set_key` that returns `KVDB_RETURN_OK` had its key bound and its
statement run. -/
theorem kvdb_set_key_ok (e : Env) (db : Table) (key value : CStr)
    (h : (kvdb_set_key e db key value).1 = KVDB_RETURN_OK) :
    key.length ≤ SQLITE_MAX_LENGTH ∧
    (kvdb_set_key e db key value).2 =
      upsert (strftime_now e.now) key (sqlite3_bind_text value).2 db := by
  rw [kvdb_set_key_eq] at h ⊢
  split at h
  · rename_i hc; simp [hc]
  · simp [KVDB_RETURN_OK, KVDB_RETURN_ERROR] at h

theorem kvdb_del_key_ok (e : Env) (db : Table) (key : CStr)
    (h : (kvdb_del_key e db key).1 = KVDB_RETURN_OK) :
    (kvdb_del_key e db key).2 = delete_rows db (sqlite3_bind_text key).2 := by
  rw [kvdb_del_key_eq] at h ⊢
  split at h
  · rename_i hc; simp [hc]
  · simp [KVDB_RETURN_OK, KVDB_RETURN_ERROR] at h

/-! ## Order of rendered clock readings -/

theorem digit_char_lt_iff (x y : Nat) : digit_char x < digit_char y ↔ x % 10 < y % 10 := by
  have hx : x % 10 < 10 := Nat.mod_lt _ (by decide)
  have hy : y % 10 < 10 := Nat.mod_lt _ (by decide)
  unfold digit_char
  generalize x % 10 = a at hx ⊢
  generalize y % 10 = b at hy ⊢
  interval_cases a <;> interval_cases b <;> decide

theorem lex_lt_cons_same (c : Char) (r1 r2 : CStr) :
    lex_lt (c :: r1) (c :: r2) = lex_lt r1 r2 := by
  simp [lex_lt]

theorem lex_lt_pad2 (n m : Nat) (r1 r2 : CStr) (hn : n ≤ 99) (hm : m ≤ 99) :
    lex_lt (pad2 n ++ r1) (pad2 m ++ r2) =
      if n < m then true else if m < n then false else lex_lt r1 r2 := by
  simp only [pad2, List.cons_append, List.nil_append, lex_lt, digit_char_lt_iff]
  split_ifs <;> first | rfl | omega

theorem lex_lt_pad3 (n m : Nat) (r1 r2 : CStr) (hn : n ≤ 999) (hm : m ≤ 999) :
    lex_lt (pad3 n ++ r1) (pad3 m ++ r2) =
      if n < m then true else if m < n then false else lex_lt r1 r2 := by
  simp only [pad3, List.cons_append, List.nil_append, lex_lt, digit_char_lt_iff]
  split_ifs <;> first | rfl | omega

theorem lex_lt_pad4 (n m : Nat) (r1 r2 : CStr) (hn : n ≤ 9999) (hm : m ≤ 9999) :
    lex_lt (pad4 n ++ r1) (pad4 m ++ r2) =
      if n < m then true else if m < n then false else lex_lt r1 r2 := by
  simp only [pad4, List.cons_append, List.nil_append, lex_lt, digit_char_lt_iff]
  split_ifs <;> first | rfl | omega

theorem lex_lt_irrefl (s : CStr) : lex_lt s s = false := by
  induction s with
  | nil => rfl
  | cons c cs ih => simp [lex_lt, ih]

/-- Rendering keeps the order of clock readings: the text of an earlier reading sorts
before the text of a later one, and only then. -/
theorem strftime_text_lt (a b : DateTime) (ha : a.valid) (hb : b.valid) :
    str_lt (strftime_text a) (strftime_text b) = a.before b := by
  obtain ⟨ha1, -, ha2, -, ha3, ha4, ha5, ha6, ha7⟩ := ha
  obtain ⟨hb1, -, hb2, -, hb3, hb4, hb5, hb6, hb7⟩ := hb
  simp only [str_lt, strftime_text, List.append_assoc, List.cons_append]
  rw [lex_lt_pad4 _ _ _ _ ha1 hb1, lex_lt_cons_same,
    lex_lt_pad2 _ _ _ _ (by omega) (by omega), lex_lt_cons_same,
    lex_lt_pad2 _ _ _ _ (by omega) (by omega), lex_lt_cons_same,
    lex_lt_pad2 _ _ _ _ (by omega) (by omega), lex_lt_cons_same,
    lex_lt_pad2 _ _ _ _ (by omega) (by omega), lex_lt_cons_same,
    lex_lt_pad2 _ _ _ _ (by omega) (by omega), lex_lt_cons_same,
    lex_lt_pad3 _ _ _ _ ha7 hb7]
  simp [DateTime.before, DateTime.fields, lex_lt]

theorem lex_lt_nat_total (xs ys : List Nat) (hlen : xs.length = ys.length)
    (h1 : lex_lt xs ys = false) (h2 : lex_lt ys xs = false) : xs = ys := by
  induction xs generalizing ys with
  | nil =>
    cases ys with
    | nil => rfl
    | cons y ys => simp at hlen
  | cons x xs ih =>
    cases ys with
    | nil => simp at hlen
    | cons y ys =>
      simp only [lex_lt] at h1 h2
      simp only [List.length_cons, Nat.add_right_cancel_iff] at hlen
      by_cases hxy : x < y
      · simp [hxy] at h1
      · by_cases hyx : y < x
        · simp [hyx] at h2
        · simp only [hxy, hyx, if_false] at h1 h2
          have hx : x = y := by omega
          rw [hx, ih ys hlen h1 h2]

/-- Two clock readings neither of which is earlier than the other are the same reading. -/
theorem before_trichotomy (a b : DateTime) (h1 : a.before b = false)
    (h2 : b.before a = false) : a = b := by
  have h := lex_lt_nat_total a.fields b.fields rfl h1 h2
  cases a; cases b
  simpa [DateTime.fields] using h

/-- Rendering is one to one on clock readings. -/
theorem strftime_text_inj (a b : DateTime) (ha : a.valid) (hb : b.valid) :
    strftime_text a = strftime_text b ↔ a = b := by
  constructor
  · intro h
    apply before_trichotomy
    · rw [← strftime_text_lt a b ha hb, h]; exact lex_lt_irrefl _
    · rw [← strftime_text_lt b a hb ha, h]; exact lex_lt_irrefl _
  · intro h; rw [h]

theorem strftime_now_valid (t : DateTime) (h : t.valid) :
    strftime_now t = some (strftime_text t) := by
  simp [strftime_now, h]

theorem strftime_now_beyond (t : DateTime) (h : ¬ t.valid) : strftime_now t = none := by
  simp [strftime_now, h]

/-! ## Runs of `main` -/

theorem strcmp_eq_zero (a b : CStr) : strcmp a b = 0 ↔ a = b := by
  unfold strcmp
  split_ifs <;> simp_all

theorem verb_get_eq (e : Env) (p k : CStr) (st : Run) :
    verb_get e [p, "get".toList, k] st =
      some (match kvdb_get_key_value e st.db k with
        | none => Ending.undefined
        | some r =>
          Ending.exited
            { exit_code := EXIT_SUCCESS,
              stdout := st.out ++ [match r with
                                   | some v => msg_get_value p k v
                                   | none => msg_get_no_value p k],
              stderr := [], file := some st.db,
              ops := st.ops ++ [Op.get_key_value, Op.close_db] }) := by
  simp only [verb_get, argv_string, argv_at]
  simp [strcmp_eq_zero, verb_del, verb_ts, verb_end, fmt_s, argv_string, argv_at]
  rcases kvdb_get_key_value e st.db k with _ | _ | v <;> simp

theorem main_get_eq (w : World) (p k : CStr) :
    main w [p, "get".toList, k] =
      some (match early_exit w p with
        | some o => Ending.exited o
        | none =>
          match kvdb_get_key_value w.env (w.file.getD []) k with
          | none => Ending.undefined
          | some r =>
            Ending.exited
              { exit_code := EXIT_SUCCESS,
                stdout := [match r with
                           | some v => msg_get_value p k v
                           | none => msg_get_no_value p k],
                stderr := [], file := some (w.file.getD []),
                ops := [Op.open_db, Op.create_table, Op.get_key_value, Op.close_db] }) := by
  cases ho : w.open_ok <;> cases hc : w.create_ok <;>
    simp [main, usage_check, argv_string, argv_at, strcmp_eq_zero, kvdb_open_db,
      kvdb_create_table_in_db, ho, hc, verb_set, verb_get, verb_del, verb_ts, verb_end, fmt_s,
      early_exit, SQLITE_OK, SQLITE_ERROR, KVDB_RETURN_OK, KVDB_RETURN_ERROR]
  rcases kvdb_get_key_value w.env (w.file.getD []) k with _ | _ | v <;> simp

theorem main_set_eq (w : World) (p k v : CStr) :
    main w [p, "set".toList, k, v] =
      some (Ending.exited (match early_exit w p with
        | some o => o
        | none =>
          if (kvdb_set_key w.env (w.file.getD []) k v).1 = KVDB_RETURN_OK then
            { exit_code := EXIT_SUCCESS, stdout := [msg_set_ok p k v], stderr := [],
              file := some (kvdb_set_key w.env (w.file.getD []) k v).2,
              ops := [Op.open_db, Op.create_table, Op.set_key, Op.close_db] }
          else
            { exit_code := EXIT_FAILURE, stdout := [], stderr := [msg_set_fail p k v],
              file := some (kvdb_set_key w.env (w.file.getD []) k v).2,
              ops := [Op.open_db, Op.create_table, Op.set_key, Op.close_db] })) := by
  cases ho : w.open_ok <;> cases hc : w.create_ok <;>
    simp [main, usage_check, argv_string, argv_at, strcmp_eq_zero, kvdb_open_db,
      kvdb_create_table_in_db, ho, hc, verb_set, verb_get, verb_del, verb_ts, verb_end,
      verb_fail, fmt_s, early_exit, SQLITE_OK, SQLITE_ERROR, KVDB_RETURN_OK, KVDB_RETURN_ERROR]
  split_ifs <;> simp

theorem main_del_eq (w : World) (p k : CStr) :
    main w [p, "del".toList, k] =
      some (Ending.exited (match early_exit w p with
        | some o => o
        | none =>
          if (kvdb_del_key w.env (w.file.getD []) k).1 = KVDB_RETURN_OK then
            { exit_code := EXIT_SUCCESS, stdout := [msg_del_ok p k], stderr := [],
              file := some (kvdb_del_key w.env (w.file.getD []) k).2,
              ops := [Op.open_db, Op.create_table, Op.del_key, Op.close_db] }
          else
            { exit_code := EXIT_FAILURE, stdout := [], stderr := [msg_del_fail p k],
              file := some (kvdb_del_key w.env (w.file.getD []) k).2,
              ops := [Op.open_db, Op.create_table, Op.del_key, Op.close_db] })) := by
  cases ho : w.open_ok <;> cases hc : w.create_ok <;>
    simp [main, usage_check, argv_string, argv_at, strcmp_eq_zero, kvdb_open_db,
      kvdb_create_table_in_db, ho, hc, verb_set, verb_get, verb_del, verb_ts, verb_end,
      verb_fail, fmt_s, early_exit, SQLITE_OK, SQLITE_ERROR, KVDB_RETURN_OK, KVDB_RETURN_ERROR]
  split_ifs <;> simp

theorem main_ts_eq (w : World) (p k : CStr) :
    main w [p, "ts".toList, k] =
      some (match early_exit w p with
        | some o => Ending.exited o
        | none =>
          match select_row (w.file.getD []) k with
          | some row =>
            if w.env.prepare_ok = true ∧ w.env.step_ok = true then
              match row.insert_ts, row.update_ts with
              | some i, some u =>
                Ending.exited
                  { exit_code := EXIT_SUCCESS,
                    stdout := [msg_ts_ok p k
                      (c_string (copy_to_buffer i KVDB_TS_CHAR_LENGTH))
                      (c_string (copy_to_buffer u KVDB_TS_CHAR_LENGTH))],
                    stderr := [], file := some (w.file.getD []),
                    ops := [Op.open_db, Op.create_table, Op.get_key_ts, Op.close_db] }
              | _, _ => Ending.undefined
            else
              Ending.exited
                { exit_code := EXIT_FAILURE, stdout := [msg_ts_fail p k], stderr := [],
                  file := some (w.file.getD []),
                  ops := [Op.open_db, Op.create_table, Op.get_key_ts, Op.close_db] }
          | none =>
            Ending.exited
              { exit_code := EXIT_FAILURE, stdout := [msg_ts_fail p k], stderr := [],
                file := some (w.file.getD []),
                ops := [Op.open_db, Op.create_table, Op.get_key_ts, Op.close_db] }) := by
  cases ho : w.open_ok <;> cases hc : w.create_ok <;>
    simp [main, usage_check, argv_string, argv_at, strcmp_eq_zero, kvdb_open_db,
      kvdb_create_table_in_db, ho, hc, verb_set, verb_get, verb_del, verb_ts, verb_end,
      verb_fail, fmt_s, early_exit, SQLITE_OK, SQLITE_ERROR, KVDB_RETURN_OK, KVDB_RETURN_ERROR,
      kvdb_get_key_ts_eq]
  rcases select_row (w.file.getD []) k with _ | ⟨rk, rv, _ | i, _ | u⟩ <;>
    cases hp : w.env.prepare_ok <;> cases hs : w.env.step_ok <;> simp [KVDB_RETURN_ERROR]

/-! ## Round trip -/

theorem long_value_beyond : ¬ long_value.length ≤ SQLITE_MAX_LENGTH := by
  simp only [long_value, List.length_replicate]
  omega

/-- Setting key `a` to `long_value` on the empty table: the engine refuses to bind the
value, the call returns `KVDB_RETURN_OK` and the row is stored with a NULL value. -/
theorem set_long_value :
    kvdb_set_key (env_ok clock_a) [] "a".toList long_value =
      (KVDB_RETURN_OK, [{ row_a1 with value := none }]) := by
  rw [kvdb_set_key_eq, bind_beyond long_value long_value_beyond]
  decide

/-- After a call of `kvdb_set_key` that returns `KVDB_RETURN_OK` the table holds a row for
the key, with the value as `sqlite3_bind_text` left the parameter. -/
theorem select_after_set (e : Env) (db : Table) (k v : CStr)
    (h : (kvdb_set_key e db k v).1 = KVDB_RETURN_OK) :
    (select_row (kvdb_set_key e db k v).2 k).map Row.value =
      some (sqlite3_bind_text v).2 := by
  obtain ⟨hk, heq⟩ := kvdb_set_key_ok e db k v h
  rw [heq, select_row_upsert_self _ _ _ _ hk]
  cases select_row db k <;> rfl

/-- C1, as stated, fails, in two ways. `set a 1` returns `KVDB_RETURN_OK` on the empty
table, and the `kvdb_get_key_value` that follows returns NULL when `sqlite3_prepare_v2`
refuses its SELECT (the early `return NULL` of line 70). And with every call served, the set
of key `a` to a value beyond the length limit of the engine returns `KVDB_RETURN_OK` with a
NULL value stored (the refusal of `sqlite3_bind_text` at line 53 is not looked at), and the
get that follows calls `strdup` on a NULL pointer instead of returning the value. -/
theorem set_then_get_counterexample :
    ((kvdb_set_key (env_ok clock_a) [] "a".toList "1".toList).1 = KVDB_RETURN_OK ∧
      kvdb_get_key_value env_prepare_fails
        (kvdb_set_key (env_ok clock_a) [] "a".toList "1".toList).2 "a".toList = some none) ∧
    ((kvdb_set_key (env_ok clock_a) [] "a".toList long_value).1 = KVDB_RETURN_OK ∧
      (select_row (kvdb_set_key (env_ok clock_a) [] "a".toList long_value).2
        "a".toList).map Row.value = some none ∧
      kvdb_get_key_value (env_ok clock_b)
        (kvdb_set_key (env_ok clock_a) [] "a".toList long_value).2 "a".toList = none) := by
  refine ⟨by decide, ?_⟩
  rw [set_long_value]
  decide

/-- C1, amended: when `kvdb_set_key(k, v)` returns `KVDB_RETURN_OK` for a value `v` within
the length limit of the engine, on any table (with or without a row for `k` before), the
`kvdb_get_key_value(k)` that follows returns `v` provided its SELECT is prepared and stepped
by the engine and `strdup` finds memory; otherwise it returns NULL. -/
theorem set_then_get (e1 e2 : Env) (db : Table) (k v : CStr)
    (hset : (kvdb_set_key e1 db k v).1 = KVDB_RETURN_OK)
    (hv : v.length ≤ SQLITE_MAX_LENGTH) :
    (e2.prepare_ok = true ∧ e2.step_ok = true ∧ e2.strdup_ok = true →
      kvdb_get_key_value e2 (kvdb_set_key e1 db k v).2 k = some (some v)) ∧
    (¬ (e2.prepare_ok = true ∧ e2.step_ok = true ∧ e2.strdup_ok = true) →
      kvdb_get_key_value e2 (kvdb_set_key e1 db k v).2 k = some none) := by
  have hsel := select_after_set e1 db k v hset
  rw [bind_within v hv] at hsel
  rw [kvdb_get_key_value_eq]
  cases hr : select_row (kvdb_set_key e1 db k v).2 k with
  | none => rw [hr] at hsel; simp at hsel
  | some row =>
    rw [hr] at hsel
    have hval : row.value = some v := by simpa using hsel
    constructor
    · rintro ⟨hp, hs, hd⟩
      simp [hp, hs, hd, hval, strdup]
    · intro h
      cases hp : e2.prepare_ok <;> cases hs : e2.step_ok <;> cases hd : e2.strdup_ok <;>
        simp_all [strdup]

/-- Witness of `set_then_get`: overwrite the row of key `a` and read it back. -/
theorem set_then_get_witness :
    (kvdb_set_key (env_ok clock_b) table_a1 "a".toList "2".toList).1 = KVDB_RETURN_OK ∧
    "2".toList.length ≤ SQLITE_MAX_LENGTH ∧
    kvdb_get_key_value (env_ok clock_b)
      (kvdb_set_key (env_ok clock_b) table_a1 "a".toList "2".toList).2 "a".toList
      = some (some "2".toList) :=
  ⟨by decide, by decide,
   (set_then_get (env_ok clock_b) (env_ok clock_b) table_a1 "a".toList "2".toList
      (by decide) (by decide)).1 (by decide)⟩

/-! ## Timestamps of a row under `kvdb_set_key` -/

/-- One call of `kvdb_set_key`, on any key, served or refused, keeps the `insert_ts` of
an existing row. -/
theorem insert_ts_kept (e : Env) (db : Table) (k k' v' : CStr) (r : Row)
    (h : select_row db k = some r) :
    ∃ r', select_row (kvdb_set_key e db k' v').2 k = some r' ∧ r'.insert_ts = r.insert_ts := by
  rw [kvdb_set_key_eq]
  split
  · rename_i hc
    by_cases hk : k = k'
    · subst hk
      simp [select_row_upsert_self _ _ _ _ hc.2.2, h]
    · simp [select_row_upsert_other _ _ _ _ _ hk, h]
  · exact ⟨r, h, rfl⟩

/-- A sequence of `kvdb_set_key` calls keeps the `insert_ts` of an existing row. -/
theorem insert_ts_kept_calls (calls : List (Env × CStr × CStr)) (db : Table) (k : CStr)
    (r : Row) (h : select_row db k = some r) :
    ∃ r', select_row (set_calls db calls) k = some r' ∧ r'.insert_ts = r.insert_ts := by
  induction calls generalizing db r with
  | nil => exact ⟨r, h, rfl⟩
  | cons c cs ih =>
    obtain ⟨r1, h1, e1⟩ := insert_ts_kept c.1 db k c.2.1 c.2.2 r h
    obtain ⟨r2, h2, e2⟩ := ih _ r1 h1
    exact ⟨r2, h2, e2.trans e1⟩

/-- C2: the first successful `kvdb_set_key` of a key `k` creates its row with `insert_ts`
the value of `strftime(...)` at the clock of that call, and after every sequence of
`kvdb_set_key` calls that follows, on `k` or on other keys (successful ones, and refused
ones as well), the row of `k` exists with that same `insert_ts`. -/
theorem insert_ts_immutable (e : Env) (db : Table) (k v : CStr)
    (calls : List (Env × CStr × CStr))
    (hnew : select_row db k = none)
    (hok : (kvdb_set_key e db k v).1 = KVDB_RETURN_OK) :
    ∃ r0 r, select_row (kvdb_set_key e db k v).2 k = some r0 ∧
      r0.insert_ts = strftime_now e.now ∧
      select_row (set_calls (kvdb_set_key e db k v).2 calls) k = some r ∧
      r.insert_ts = r0.insert_ts := by
  obtain ⟨hk, heq⟩ := kvdb_set_key_ok e db k v hok
  have h0 : select_row (kvdb_set_key e db k v).2 k =
      some { key := k, value := (sqlite3_bind_text v).2, insert_ts := strftime_now e.now,
             update_ts := strftime_now e.now } := by
    rw [heq, select_row_upsert_self _ _ _ _ hk, hnew]
  obtain ⟨r, hr, he⟩ := insert_ts_kept_calls calls _ k _ h0
  exact ⟨_, r, h0, rfl, hr, he⟩

/-- Witness of `insert_ts_immutable`: key `a` is created at `clock_a`, then `a` is
overwritten and another key is created at `clock_b`. -/
theorem insert_ts_immutable_witness :
    select_row [] "a".toList = none ∧
    (kvdb_set_key (env_ok clock_a) [] "a".toList "1".toList).1 = KVDB_RETURN_OK ∧
    ∃ r0 r, select_row (kvdb_set_key (env_ok clock_a) [] "a".toList "1".toList).2 "a".toList
        = some r0 ∧
      r0.insert_ts = strftime_now (env_ok clock_a).now ∧
      select_row (set_calls (kvdb_set_key (env_ok clock_a) [] "a".toList "1".toList).2
        [(env_ok clock_b, "a".toList, "2".toList), (env_ok clock_b, "b".toList, "3".toList)])
        "a".toList = some r ∧
      r.insert_ts = r0.insert_ts :=
  ⟨by decide, by decide,
   insert_ts_immutable (env_ok clock_a) [] "a".toList "1".toList
     [(env_ok clock_b, "a".toList, "2".toList), (env_ok clock_b, "b".toList, "3".toList)]
     (by decide) (by decide)⟩

/-! ## Setting a key twice -/

/-- C3, as stated, fails, in three ways. Two successful sets of key `a` whose statements
read the same millisecond of the clock leave the same `update_ts`, so the second is not
later than the first. A successful second set with a value beyond the length limit of the
engine leaves a NULL value, not the value. A successful second set at a clock reading in
year 10000 leaves a NULL `update_ts`, not the current time. -/
theorem set_twice_counterexample :
    ((kvdb_set_key (env_ok clock_a) [] "a".toList "1".toList).1 = KVDB_RETURN_OK ∧
      (kvdb_set_key (env_ok clock_a) table_a1 "a".toList "2".toList).1 = KVDB_RETURN_OK ∧
      select_row table_a1 "a".toList = some row_a1 ∧
      select_row (kvdb_set_key (env_ok clock_a) table_a1 "a".toList "2".toList).2 "a".toList =
        some { row_a1 with value := some "2".toList } ∧
      row_a1.update_ts = some "2024-01-02 03:04:05.678Z".toList ∧
      str_lt "2024-01-02 03:04:05.678Z".toList "2024-01-02 03:04:05.678Z".toList = false) ∧
    ((kvdb_set_key (env_ok clock_b) table_a1 "a".toList long_value).1 = KVDB_RETURN_OK ∧
      (select_row (kvdb_set_key (env_ok clock_b) table_a1 "a".toList long_value).2
        "a".toList).map Row.value = some none) ∧
    ((kvdb_set_key (env_ok clock_far) table_a1 "a".toList "2".toList).1 = KVDB_RETURN_OK ∧
      (select_row (kvdb_set_key (env_ok clock_far) table_a1 "a".toList "2".toList).2
        "a".toList).map Row.update_ts = some none) := by
  refine ⟨by decide, ?_, by decide⟩
  rw [kvdb_set_key_eq, bind_beyond long_value long_value_beyond]
  decide

/-- C3, amended: `set(k, v1)` followed by `set(k, v2)`, both successful, with `v2` within
the length limit of the engine and both clock readings ones the engine can render (years
0000 to 9999), leaves the row of `k` with value `v2`, with the `insert_ts` the first set
left, and with `update_ts` the text of the clock reading of the second set; the first set
left the text of its own clock reading. The new `update_ts` sorts after the old one exactly
when the second reading is later than the first at millisecond precision, and equals the
old one exactly when the two readings are the same millisecond. -/
theorem set_twice (e1 e2 : Env) (db : Table) (k v1 v2 : CStr)
    (h1 : (kvdb_set_key e1 db k v1).1 = KVDB_RETURN_OK)
    (h2 : (kvdb_set_key e2 (kvdb_set_key e1 db k v1).2 k v2).1 = KVDB_RETURN_OK)
    (hv2 : v2.length ≤ SQLITE_MAX_LENGTH)
    (ha : e1.now.valid) (hb : e2.now.valid) :
    ∃ r1 r2, select_row (kvdb_set_key e1 db k v1).2 k = some r1 ∧
      select_row (kvdb_set_key e2 (kvdb_set_key e1 db k v1).2 k v2).2 k = some r2 ∧
      r2.value = some v2 ∧ r2.insert_ts = r1.insert_ts ∧
      r1.update_ts = some (strftime_text e1.now) ∧
      r2.update_ts = some (strftime_text e2.now) ∧
      (str_lt (strftime_text e1.now) (strftime_text e2.now) = true ↔
        e1.now.before e2.now = true) ∧
      (r2.update_ts = r1.update_ts ↔ e2.now = e1.now) := by
  obtain ⟨hk, heq1⟩ := kvdb_set_key_ok e1 db k v1 h1
  obtain ⟨-, heq2⟩ := kvdb_set_key_ok e2 _ k v2 h2
  have hs1 := select_row_upsert_self (strftime_now e1.now) k (sqlite3_bind_text v1).2 db hk
  rw [← heq1] at hs1
  have hs2 := select_row_upsert_self (strftime_now e2.now) k (sqlite3_bind_text v2).2
    (kvdb_set_key e1 db k v1).2 hk
  rw [← heq2, hs1, bind_within v2 hv2, strftime_now_valid _ hb] at hs2
  have hu : (match select_row db k with
      | some r => ({ r with value := (sqlite3_bind_text v1).2,
                            update_ts := strftime_now e1.now } : Row)
      | none => { key := k, value := (sqlite3_bind_text v1).2,
                  insert_ts := strftime_now e1.now,
                  update_ts := strftime_now e1.now }).update_ts
        = some (strftime_text e1.now) := by
    rw [strftime_now_valid _ ha]
    cases select_row db k <;> rfl
  refine ⟨_, _, hs1, hs2, rfl, ?_, hu, rfl, ?_, ?_⟩
  · cases select_row db k <;> rfl
  · rw [strftime_text_lt e1.now e2.now ha hb]
  · simp only [hu, Option.some.injEq]
    exact strftime_text_inj e2.now e1.now hb ha

/-- Witness of `set_twice`: key `a` set at `clock_a` and again one millisecond later. -/
theorem set_twice_witness :
    (kvdb_set_key (env_ok clock_a) [] "a".toList "1".toList).1 = KVDB_RETURN_OK ∧
    (kvdb_set_key (env_ok clock_b) (kvdb_set_key (env_ok clock_a) [] "a".toList "1".toList).2
      "a".toList "2".toList).1 = KVDB_RETURN_OK ∧
    "2".toList.length ≤ SQLITE_MAX_LENGTH ∧
    (env_ok clock_a).now.valid ∧ (env_ok clock_b).now.valid ∧
    ∃ r1 r2, select_row (kvdb_set_key (env_ok clock_a) [] "a".toList "1".toList).2 "a".toList
        = some r1 ∧
      select_row (kvdb_set_key (env_ok clock_b)
        (kvdb_set_key (env_ok clock_a) [] "a".toList "1".toList).2
        "a".toList "2".toList).2 "a".toList = some r2 ∧
      r2.value = some "2".toList ∧ r2.insert_ts = r1.insert_ts ∧
      r1.update_ts = some (strftime_text (env_ok clock_a).now) ∧
      r2.update_ts = some (strftime_text (env_ok clock_b).now) ∧
      (str_lt (strftime_text (env_ok clock_a).now) (strftime_text (env_ok clock_b).now) = true ↔
        (env_ok clock_a).now.before (env_ok clock_b).now = true) ∧
      (r2.update_ts = r1.update_ts ↔ (env_ok clock_b).now = (env_ok clock_a).now) :=
  ⟨by decide, by decide, by decide, by decide, by decide,
   set_twice (env_ok clock_a) (env_ok clock_b) [] "a".toList "1".toList "2".toList
     (by decide) (by decide) (by decide) (by decide) (by decide)⟩

/-! ## Delete -/

/-- C4: after a successful `kvdb_set_key(k, v)`, which leaves a row of `k` holding the value
as it was bound, followed by a successful `kvdb_del_key(k)`, `kvdb_get_key_value(k)` returns
NULL in every environment; the block of the `get` verb (lines 171-178), run on that table
from any state of `main`, adds the `returned no value` text to `stdout`, writes nothing to
`stderr` and leaves with exit code 0; so does the whole run `get k` of `main` once the file
is open and the schema statement has run. -/
theorem get_after_del (e1 e2 e3 : Env) (db : Table) (k v p : CStr)
    (hset : (kvdb_set_key e1 db k v).1 = KVDB_RETURN_OK)
    (hdel : (kvdb_del_key e2 (kvdb_set_key e1 db k v).2 k).1 = KVDB_RETURN_OK) :
    (select_row (kvdb_set_key e1 db k v).2 k).map Row.value = some (sqlite3_bind_text v).2 ∧
    kvdb_get_key_value e3 (kvdb_del_key e2 (kvdb_set_key e1 db k v).2 k).2 k = some none ∧
    (∀ st : Run, st.db = (kvdb_del_key e2 (kvdb_set_key e1 db k v).2 k).2 →
      verb_get e3 [p, "get".toList, k] st =
        some (Ending.exited
          { exit_code := 0,
            stdout := st.out ++
              [p ++ ": Get key '".toList ++ k ++ "' returned no value. SUCCESS\n".toList],
            stderr := [], file := some st.db,
            ops := st.ops ++ [Op.get_key_value, Op.close_db] })) ∧
    (∀ w : World, w.file = some (kvdb_del_key e2 (kvdb_set_key e1 db k v).2 k).2 →
      w.open_ok = true → w.create_ok = true →
      main w [p, "get".toList, k] =
        some (Ending.exited
          { exit_code := 0,
            stdout := [p ++ ": Get key '".toList ++ k ++ "' returned no value. SUCCESS\n".toList],
            stderr := [], file := w.file,
            ops := [Op.open_db, Op.create_table, Op.get_key_value, Op.close_db] })) := by
  have habs : ∀ e : Env,
      kvdb_get_key_value e (kvdb_del_key e2 (kvdb_set_key e1 db k v).2 k).2 k = some none := by
    intro e
    rw [kvdb_get_key_value_eq, kvdb_del_key_ok _ _ _ hdel, select_row_delete_self]
    simp
  refine ⟨select_after_set e1 db k v hset, habs e3, ?_, ?_⟩
  · intro st hst
    rw [verb_get_eq, hst, habs]
    rfl
  · intro w hfile ho hc
    rw [main_get_eq, hfile]
    simp [early_exit, ho, hc, habs, EXIT_SUCCESS, msg_get_no_value]

/-- Witness of `get_after_del`: `set a 1`, `del a`, then the run `kvdb get a`. -/
theorem get_after_del_witness :
    (kvdb_set_key (env_ok clock_a) [] "a".toList "1".toList).1 = KVDB_RETURN_OK ∧
    (kvdb_del_key (env_ok clock_b)
      (kvdb_set_key (env_ok clock_a) [] "a".toList "1".toList).2 "a".toList).1
      = KVDB_RETURN_OK ∧
    kvdb_get_key_value (env_ok clock_b) (kvdb_del_key (env_ok clock_b)
      (kvdb_set_key (env_ok clock_a) [] "a".toList "1".toList).2 "a".toList).2 "a".toList
      = some none ∧
    main (world_ok (some (kvdb_del_key (env_ok clock_b)
        (kvdb_set_key (env_ok clock_a) [] "a".toList "1".toList).2 "a".toList).2) clock_b)
      ["kvdb".toList, "get".toList, "a".toList] =
      some (Ending.exited
        { exit_code := 0,
          stdout := ["kvdb".toList ++ ": Get key '".toList ++ "a".toList ++
            "' returned no value. SUCCESS\n".toList],
          stderr := [],
          file := (world_ok (some (kvdb_del_key (env_ok clock_b)
            (kvdb_set_key (env_ok clock_a) [] "a".toList "1".toList).2 "a".toList).2)
            clock_b).file,
          ops := [Op.open_db, Op.create_table, Op.get_key_value, Op.close_db] }) :=
  ⟨by decide, by decide,
   (get_after_del (env_ok clock_a) (env_ok clock_b) (env_ok clock_b) [] "a".toList
     "1".toList "kvdb".toList (by decide) (by decide)).2.1,
   (get_after_del (env_ok clock_a) (env_ok clock_b) (env_ok clock_b) [] "a".toList
     "1".toList "kvdb".toList (by decide) (by decide)).2.2.2 _ rfl rfl rfl⟩

/-- C5, as stated, fails: on the empty table `kvdb_del_key` of key `a` returns
`KVDB_RETURN_OK`, not `KVDB_RETURN_ERROR`, and the run `kvdb del a` prints the SUCCESS text
to `stdout` and exits with 0. -/
theorem del_absent_counterexample :
    select_row [] "a".toList = none ∧
    kvdb_del_key (env_ok clock_a) [] "a".toList = (KVDB_RETURN_OK, []) ∧
    main (world_ok (some []) clock_a) ["kvdb".toList, "del".toList, "a".toList] =
      some (Ending.exited
        { exit_code := 0, stdout := ["kvdb: Del key 'a'. SUCCESS\n".toList], stderr := [],
          file := some [],
          ops := [Op.open_db, Op.create_table, Op.del_key, Op.close_db] }) := by
  decide

/-- C5, amended: deleting a key without a row is not a failure. On a table with no row for
`k`, `kvdb_del_key(k)` leaves the table as it is and returns `KVDB_RETURN_OK` whenever the
engine prepares and steps the DELETE, and `KVDB_RETURN_ERROR` only when the engine refuses
the statement; the `del` verb, once the file is open and the schema statement has run, then
prints the SUCCESS text to `stdout` and exits with 0, respectively the FAIL text to `stderr`
and exits with 1. -/
theorem del_absent (w : World) (p k : CStr)
    (habs : select_row (w.file.getD []) k = none)
    (ho : w.open_ok = true) (hc : w.create_ok = true) :
    (kvdb_del_key w.env (w.file.getD []) k).2 = w.file.getD [] ∧
    (w.env.prepare_ok = true ∧ w.env.step_ok = true →
      (kvdb_del_key w.env (w.file.getD []) k).1 = KVDB_RETURN_OK ∧
      main w [p, "del".toList, k] =
        some (Ending.exited
          { exit_code := 0,
            stdout := [p ++ ": Del key '".toList ++ k ++ "'. SUCCESS\n".toList],
            stderr := [], file := some (w.file.getD []),
            ops := [Op.open_db, Op.create_table, Op.del_key, Op.close_db] })) ∧
    (¬ (w.env.prepare_ok = true ∧ w.env.step_ok = true) →
      (kvdb_del_key w.env (w.file.getD []) k).1 = KVDB_RETURN_ERROR ∧
      main w [p, "del".toList, k] =
        some (Ending.exited
          { exit_code := 1, stdout := [],
            stderr := [p ++ ": Del key '".toList ++ k ++ "'. FAIL\n".toList],
            file := some (w.file.getD []),
            ops := [Op.open_db, Op.create_table, Op.del_key, Op.close_db] })) := by
  rw [main_del_eq, kvdb_del_key_eq, delete_rows_absent k _ habs]
  refine ⟨by split_ifs <;> rfl, ?_, ?_⟩
  · intro h
    simp [early_exit, ho, hc, h, EXIT_SUCCESS, msg_del_ok]
  · intro h
    simp [early_exit, ho, hc, h, EXIT_FAILURE, KVDB_RETURN_OK, KVDB_RETURN_ERROR,
      msg_del_fail]

/-- Witness of `del_absent`: the run `kvdb del b` on the table that holds key `a` only. -/
theorem del_absent_witness :
    select_row ((world_ok (some table_a1) clock_b).file.getD []) "b".toList = none ∧
    (world_ok (some table_a1) clock_b).open_ok = true ∧
    (world_ok (some table_a1) clock_b).create_ok = true ∧
    (kvdb_del_key (world_ok (some table_a1) clock_b).env table_a1 "b".toList).1
      = KVDB_RETURN_OK ∧
    main (world_ok (some table_a1) clock_b) ["kvdb".toList, "del".toList, "b".toList] =
      some (Ending.exited
        { exit_code := 0,
          stdout := ["kvdb".toList ++ ": Del key '".toList ++ "b".toList ++
            "'. SUCCESS\n".toList],
          stderr := [], file := some table_a1,
          ops := [Op.open_db, Op.create_table, Op.del_key, Op.close_db] }) :=
  ⟨by decide, rfl, rfl,
   (del_absent (world_ok (some table_a1) clock_b) "kvdb".toList "b".toList
      (by decide) rfl rfl).2.1 (by decide)⟩

/-! ## Absent keys and refused statements in `get` -/

/-- C6, as stated, fails: the table holds a row for key `a`, the engine refuses to prepare
the SELECT, and `kvdb_get_key_value` returns NULL; the run `kvdb get a` reports it as
`returned no value. SUCCESS` on `stdout` with exit code 0, not as a read failure. -/
theorem get_absent_counterexample :
    select_row table_a1 "a".toList = some row_a1 ∧
    kvdb_get_key_value env_prepare_fails table_a1 "a".toList = some none ∧
    main { file := some table_a1, open_ok := true, create_ok := true,
           env := env_prepare_fails } ["kvdb".toList, "get".toList, "a".toList] =
      some (Ending.exited
        { exit_code := 0,
          stdout := ["kvdb: Get key 'a' returned no value. SUCCESS\n".toList],
          stderr := [], file := some table_a1,
          ops := [Op.open_db, Op.create_table, Op.get_key_value, Op.close_db] }) := by
  decide

/-- C6, amended: `kvdb_get_key_value(k)` returns NULL if and only if the table holds no row
for `k`, or the engine refuses to prepare or to step the SELECT, or `strdup` finds no
memory for the text the row holds; in particular a key never set yields NULL. Whenever it
returns NULL, for whichever of these reasons, the `get` verb (once the file is open and the
schema statement has run) prints `returned no value. SUCCESS` to `stdout`, nothing to
`stderr`, and exits with 0. -/
theorem get_absent_iff (w : World) (p k : CStr)
    (ho : w.open_ok = true) (hc : w.create_ok = true) :
    (kvdb_get_key_value w.env (w.file.getD []) k = some none ↔
      (select_row (w.file.getD []) k = none ∨ w.env.prepare_ok = false ∨
        w.env.step_ok = false ∨
        (w.env.strdup_ok = false ∧
          ((select_row (w.file.getD []) k).bind Row.value).isSome = true))) ∧
    (select_row (w.file.getD []) k = none →
      kvdb_get_key_value w.env (w.file.getD []) k = some none) ∧
    (kvdb_get_key_value w.env (w.file.getD []) k = some none →
      main w [p, "get".toList, k] =
        some (Ending.exited
          { exit_code := 0,
            stdout := [p ++ ": Get key '".toList ++ k ++ "' returned no value. SUCCESS\n".toList],
            stderr := [], file := some (w.file.getD []),
            ops := [Op.open_db, Op.create_table, Op.get_key_value, Op.close_db] })) := by
  refine ⟨?_, ?_, ?_⟩
  · rw [kvdb_get_key_value_eq]
    rcases select_row (w.file.getD []) k with _ | ⟨rk, _ | rv, ri, ru⟩ <;>
      cases hp : w.env.prepare_ok <;> cases hs : w.env.step_ok <;>
      cases hd : w.env.strdup_ok <;> simp [strdup, hd]
  · intro h
    rw [kvdb_get_key_value_eq, h]
    simp
  · intro h
    rw [main_get_eq, h]
    simp [early_exit, ho, hc, EXIT_SUCCESS, msg_get_no_value]

/-- Witness of `get_absent_iff`: the run `kvdb get b` on the table that holds key `a` only. -/
theorem get_absent_iff_witness :
    (world_ok (some table_a1) clock_b).open_ok = true ∧
    (world_ok (some table_a1) clock_b).create_ok = true ∧
    select_row table_a1 "b".toList = none ∧
    kvdb_get_key_value (env_ok clock_b) table_a1 "b".toList = some none ∧
    main (world_ok (some table_a1) clock_b) ["kvdb".toList, "get".toList, "b".toList] =
      some (Ending.exited
        { exit_code := 0,
          stdout := ["kvdb".toList ++ ": Get key '".toList ++ "b".toList ++
            "' returned no value. SUCCESS\n".toList],
          stderr := [], file := some table_a1,
          ops := [Op.open_db, Op.create_table, Op.get_key_value, Op.close_db] }) :=
  ⟨rfl, rfl, by decide,
   (get_absent_iff (world_ok (some table_a1) clock_b) "kvdb".toList "b".toList rfl rfl).2.1
     (by decide),
   (get_absent_iff (world_ok (some table_a1) clock_b) "kvdb".toList "b".toList rfl rfl).2.2
     (by decide)⟩

/-! ## Timestamp lookup -/

theorem digit_char_isDigit (d : Nat) : (digit_char d).isDigit = true := by
  have hd : d % 10 < 10 := Nat.mod_lt _ (by decide)
  unfold digit_char
  generalize d % 10 = a at hd ⊢
  interval_cases a <;> decide

/-- Every text the engine renders has the format `YYYY-MM-DD HH:MM:SS.sssZ`. -/
theorem strftime_text_format (t : DateTime) :
    matches_format TS_FORMAT (strftime_text t) = true := by
  simp [TS_FORMAT, strftime_text, pad2, pad3, pad4, matches_format, digit_char_isDigit]

theorem matches_format_no_nul (pat s : CStr) (hp : NUL ∉ pat)
    (h : matches_format pat s = true) : NUL ∉ s := by
  induction pat generalizing s with
  | nil =>
    cases s with
    | nil => simp
    | cons c cs => simp [matches_format] at h
  | cons q qs ih =>
    cases s with
    | nil => simp [matches_format] at h
    | cons c cs =>
      simp only [matches_format, Bool.and_eq_true] at h
      simp only [List.mem_cons, not_or] at hp ⊢
      refine ⟨?_, ih cs hp.2 h.2⟩
      intro hc
      rw [← hc] at h
      split_ifs at h
      · exact absurd h.1 (by decide)
      · have := h.1
        simp only [beq_iff_eq] at this
        exact hp.1 this

theorem matches_format_take (pat s : CStr) (k : Nat) (h : matches_format pat s = true) :
    matches_format (pat.take k) (s.take k) = true := by
  induction pat generalizing s k with
  | nil =>
    cases s with
    | nil => simp [matches_format]
    | cons c cs => simp [matches_format] at h
  | cons q qs ih =>
    cases s with
    | nil => simp [matches_format] at h
    | cons c cs =>
      cases k with
      | zero => simp [matches_format]
      | succ k =>
        simp only [matches_format, Bool.and_eq_true] at h
        simp only [List.take_succ_cons, matches_format, Bool.and_eq_true]
        exact ⟨h.1, ih cs k h.2⟩

theorem matches_format_drop (pat s : CStr) (k : Nat) (h : matches_format pat s = true) :
    matches_format (pat.drop k) (s.drop k) = true := by
  induction pat generalizing s k with
  | nil =>
    cases s with
    | nil => simp [matches_format]
    | cons c cs => simp [matches_format] at h
  | cons q qs ih =>
    cases s with
    | nil => simp [matches_format] at h
    | cons c cs =>
      cases k with
      | zero => simpa using h
      | succ k =>
        simp only [matches_format, Bool.and_eq_true] at h
        simpa using ih cs k h.2

/-- A text of the format `YYYY-MM-DD HH:MM:SS.sssZ` is its first 23 characters, which have
the format without the suffix, followed by `Z`. -/
theorem ts_format_split (s : CStr) (h : matches_format TS_FORMAT s = true) :
    s = s.take 23 ++ ['Z'] ∧ matches_format TS_FORMAT_NO_Z (s.take 23) = true := by
  constructor
  · have hd := matches_format_drop TS_FORMAT s 23 h
    have hz : s.drop 23 = ['Z'] := by
      generalize s.drop 23 = d at hd
      have hp : TS_FORMAT.drop 23 = ['Z'] := by decide
      rw [hp] at hd
      match d, hd with
      | [c], hd =>
        simp only [matches_format] at hd
        simpa using hd
      | [], hd => simp [matches_format] at hd
      | _ :: _ :: _, hd => simp [matches_format] at hd
    calc s = s.take 23 ++ s.drop 23 := (List.take_append_drop 23 s).symm
      _ = s.take 23 ++ ['Z'] := by rw [hz]
  · have ht := matches_format_take TS_FORMAT s 23 h
    have hp : TS_FORMAT.take 23 = TS_FORMAT_NO_Z := by decide
    rwa [hp] at ht

/-- The string a buffer of `n + 1` bytes holds after lines 110-111, for a NUL-free source:
the first `n` characters of the source. -/
theorem c_string_copy_to_buffer (src : CStr) (n : Nat) (hsrc : NUL ∉ src)
    (hn : n + 1 < 2 ^ SIZE_BITS) :
    c_string (copy_to_buffer src (n + 1)) = src.take n := by
  have hsz : size_minus_one (n + 1) = n := by
    unfold size_minus_one
    rw [show n + 1 + 2 ^ SIZE_BITS - 1 = n + 2 ^ SIZE_BITS by omega, Nat.add_mod_right]
    exact Nat.mod_eq_of_lt (by omega)
  have hall : ∀ a ∈ src.take n, (fun c => decide (c ≠ NUL)) a = true := by
    intro a ha
    have : a ∈ src := List.mem_of_mem_take ha
    simp only [decide_eq_true_eq]
    intro hc
    exact hsrc (hc ▸ this)
  unfold c_string copy_to_buffer strncpy
  rw [hsz, List.append_assoc, List.takeWhile_append_of_pos hall]
  cases hk : n - src.length with
  | zero => simp
  | succ j => simp [List.replicate_succ]

/-- A text that has the shape of a pattern has the length of the pattern. -/
theorem matches_format_length (pat s : CStr) (h : matches_format pat s = true) :
    s.length = pat.length := by
  induction pat generalizing s with
  | nil =>
    cases s with
    | nil => rfl
    | cons c cs => simp [matches_format] at h
  | cons q qs ih =>
    cases s with
    | nil => simp [matches_format] at h
    | cons c cs =>
      simp only [matches_format, Bool.and_eq_true] at h
      simp [ih cs h.2]

/-- For every stored timestamp of the format `YYYY-MM-DD HH:MM:SS.sssZ`, the string a
buffer of `KVDB_TS_CHAR_LENGTH` bytes holds after lines 110-111 is its first 23 characters:
the stored text is that string followed by `Z`, and the string has the format without the
suffix, not the stored format. -/
theorem buffer_cuts_Z (ts : CStr) (h : matches_format TS_FORMAT ts = true) :
    c_string (copy_to_buffer ts KVDB_TS_CHAR_LENGTH) = ts.take 23 ∧
    ts = c_string (copy_to_buffer ts KVDB_TS_CHAR_LENGTH) ++ ['Z'] ∧
    matches_format TS_FORMAT_NO_Z (c_string (copy_to_buffer ts KVDB_TS_CHAR_LENGTH)) = true ∧
    matches_format TS_FORMAT (c_string (copy_to_buffer ts KVDB_TS_CHAR_LENGTH)) = false := by
  have hnul : NUL ∉ TS_FORMAT := by decide
  have hc : c_string (copy_to_buffer ts KVDB_TS_CHAR_LENGTH) = ts.take 23 :=
    c_string_copy_to_buffer ts 23 (matches_format_no_nul _ _ hnul h) (by decide)
  have hsplit := ts_format_split ts h
  refine ⟨hc, ?_, ?_, ?_⟩
  · rw [hc]; exact hsplit.1
  · rw [hc]; exact hsplit.2
  · rw [hc]
    cases hm : matches_format TS_FORMAT (ts.take 23) with
    | false => rfl
    | true =>
      have h1 := matches_format_length _ _ hm
      have h2 := matches_format_length _ _ hsplit.2
      have h3 : TS_FORMAT.length = 24 := by decide
      have h4 : TS_FORMAT_NO_Z.length = 23 := by decide
      omega

/-- C8, the call where the code departs from the claim: for the row `set a 1` creates at
`clock_a`, whose stored timestamps are `2024-01-02 03:04:05.678Z`, `kvdb_get_key_ts` with
two buffers of `KVDB_TS_CHAR_LENGTH` bytes returns `KVDB_RETURN_OK` and leaves in both the
string `2024-01-02 03:04:05.678`: the `Z` of the format is cut, and the strings are not
equal to the stored timestamps. -/
theorem ts_strings_lose_Z :
    select_row table_a1 "a".toList =
      some { key := "a".toList, value := some "1".toList,
             insert_ts := some "2024-01-02 03:04:05.678Z".toList,
             update_ts := some "2024-01-02 03:04:05.678Z".toList } ∧
    (kvdb_get_key_ts (env_ok clock_b) table_a1 "a".toList KVDB_TS_CHAR_LENGTH
      KVDB_TS_CHAR_LENGTH).map Prod.fst = some KVDB_RETURN_OK ∧
    ((kvdb_get_key_ts (env_ok clock_b) table_a1 "a".toList KVDB_TS_CHAR_LENGTH
      KVDB_TS_CHAR_LENGTH).bind Prod.snd).map (fun b => (c_string b.1, c_string b.2)) =
      some ("2024-01-02 03:04:05.678".toList, "2024-01-02 03:04:05.678".toList) ∧
    matches_format TS_FORMAT "2024-01-02 03:04:05.678Z".toList = true ∧
    matches_format TS_FORMAT "2024-01-02 03:04:05.678".toList = false ∧
    "2024-01-02 03:04:05.678".toList ≠ "2024-01-02 03:04:05.678Z".toList := by
  decide

/-! ## The argument contract of `main` -/

/-- A run with an accepted invocation never reads `argv` outside the array, and when it
leaves with an outcome the outcome records a store operation. -/
theorem accepted_ops (w : World) (argv : List CStr) (h : accepted argv) :
    ∃ r, main w argv = some r ∧ ∀ o, r = Ending.exited o → o.ops ≠ [] := by
  rcases h with ⟨hl, hv⟩ | ⟨hl, hv⟩
  · match argv, hl, hv with
    | [p, b, k, v], _, hv =>
      simp only [List.getElem?_cons_succ, List.getElem?_cons_zero, Option.some.injEq] at hv
      subst hv
      refine ⟨_, main_set_eq w p k v, ?_⟩
      intro o ho
      cases ho
      unfold early_exit
      cases w.open_ok <;> cases w.create_ok <;> simp
      split_ifs <;> simp
  · match argv, hl, hv with
    | [p, b, k], _, hv =>
      simp only [List.getElem?_cons_succ, List.getElem?_cons_zero, Option.some.injEq] at hv
      rcases hv with hv | hv | hv
      · subst hv
        refine ⟨_, main_get_eq w p k, ?_⟩
        intro o ho
        revert ho
        unfold early_exit
        cases w.open_ok <;> cases w.create_ok <;> simp
        · rintro rfl; simp
        · rintro rfl; simp
        · rintro rfl; simp
        · rcases kvdb_get_key_value w.env (w.file.getD []) k with _ | r <;> simp
          rintro rfl; simp
      · subst hv
        refine ⟨_, main_del_eq w p k, ?_⟩
        intro o ho
        cases ho
        unfold early_exit
        cases w.open_ok <;> cases w.create_ok <;> simp
        split_ifs <;> simp
      · subst hv
        refine ⟨_, main_ts_eq w p k, ?_⟩
        intro o ho
        revert ho
        unfold early_exit
        cases w.open_ok <;> cases w.create_ok <;> simp
        · rintro rfl; simp
        · rintro rfl; simp
        · rintro rfl; simp
        · rcases select_row (w.file.getD []) k with _ | ⟨rk, rv, _ | i, _ | u⟩ <;> simp
          · rintro rfl; simp
          all_goals
            split_ifs <;> simp
            all_goals rintro rfl; simp

/-- The outcome of a run with an invocation that is not accepted. -/
theorem not_accepted_usage (w : World) (argv : List CStr) (h : ¬ accepted argv) :
    main w argv =
      some (Ending.exited
        { exit_code := EXIT_FAILURE, stdout := [], stderr := usage argv.head?,
          file := w.file, ops := [] }) := by
  unfold accepted at h
  match argv, h with
  | [], _ => simp [main, usage_check, argv_at]
  | [p], _ => simp [main, usage_check, argv_at]
  | [p, b], _ => simp [main, usage_check, argv_at]
  | [p, b, k], h =>
    simp only [List.length_cons, List.length_nil, List.getElem?_cons_succ,
      List.getElem?_cons_zero, Option.some.injEq] at h
    simp at h
    simp [main, usage_check, argv_at, argv_string, strcmp_eq_zero, h]
  | [p, b, k, v], h =>
    simp only [List.length_cons, List.length_nil, List.getElem?_cons_succ,
      List.getElem?_cons_zero, Option.some.injEq] at h
    simp at h
    simp [main, usage_check, argv_at, argv_string, strcmp_eq_zero, h]
  | p :: b :: k :: v :: x :: rest, _ =>
    simp [main, usage_check, argv_at]

/-- The condition of lines 141-145 never reads `argv` outside the array. -/
theorem usage_check_defined (argv : List CStr) : ∃ b, usage_check argv = some b := by
  match argv with
  | [] => simp [usage_check]
  | [p] => simp [usage_check]
  | [p, b] => simp [usage_check]
  | [p, b, k] =>
    by_cases h1 : b = ['g', 'e', 't']
    · exact ⟨false, by simp [usage_check, argv_string, argv_at, strcmp_eq_zero, h1]⟩
    · by_cases h2 : b = ['d', 'e', 'l']
      · exact ⟨false, by simp [usage_check, argv_string, argv_at, strcmp_eq_zero, h2]⟩
      · by_cases h3 : b = ['t', 's']
        · exact ⟨false, by simp [usage_check, argv_string, argv_at, strcmp_eq_zero, h3]⟩
        · exact ⟨true, by simp [usage_check, argv_string, argv_at, strcmp_eq_zero, h1, h2, h3]⟩
  | [p, b, k, v] =>
    by_cases h1 : b = ['s', 'e', 't']
    · exact ⟨false, by simp [usage_check, argv_string, argv_at, strcmp_eq_zero, h1]⟩
    · exact ⟨true, by simp [usage_check, argv_string, argv_at, strcmp_eq_zero, h1]⟩
  | p :: b :: k :: v :: x :: rest => simp [usage_check]

/-- C9: for every argument vector, of any length, the check of lines 141-145 is evaluated
without reading `argv` outside the array, and so is the whole of `main`; and `main` prints
the usage text to `stderr` (the six texts of lines 126-131, the first with the program name
`argv[0]`, printed as `(null)` when `argc` is 0), prints nothing to `stdout`, exits with 1
and performs no store operation if and only if the invocation is neither `set` with exactly
three arguments after the program name nor `get`, `del` or `ts` with exactly two. -/
theorem usage_contract (w : World) (argv : List CStr) :
    (∃ b, usage_check argv = some b) ∧
    (∃ r, main w argv = some r) ∧
    ((∃ o, main w argv = some (Ending.exited o) ∧
        o.stderr =
          [ "Usage: ".toList ++ argv.head?.getD "(null)".toList ++
              " <action> [<key>] [<value>]\n".toList,
            "Actions: \n".toList,
            "\t set <key> <value>: Associate <key> with <value>, record timestamp of creation and/or last update\n".toList,
            "\t get <key>: Fetch the value associated with <key>\n".toList,
            "\t del <key>: Remove <key> from the database\n".toList,
            "\t ts <key>: Fetch the timestamps when <key> was first and last set\n".toList ] ∧
        o.stdout = [] ∧ o.exit_code = 1 ∧ o.ops = []) ↔ ¬ accepted argv) := by
  refine ⟨usage_check_defined argv, ?_, ?_⟩
  · by_cases h : accepted argv
    · obtain ⟨r, hr, -⟩ := accepted_ops w argv h
      exact ⟨r, hr⟩
    · exact ⟨_, not_accepted_usage w argv h⟩
  · constructor
    · rintro ⟨o, ho, -, -, -, hops⟩ h
      obtain ⟨r, hr, hne⟩ := accepted_ops w argv h
      rw [ho] at hr
      cases hr
      exact hne o rfl hops
    · intro h
      exact ⟨_, not_accepted_usage w argv h, rfl, rfl, rfl, rfl⟩

/-! ## Failure reporting of `main` -/

/-- C10, the run where the code departs from the claim: `kvdb ts a` on a table without key
`a` ends in failure with exit code 1, writes its FAIL text to `stdout` and writes nothing
to `stderr`. -/
theorem ts_failure_on_stdout :
    main (world_ok (some []) clock_a) ["kvdb".toList, "ts".toList, "a".toList] =
      some (Ending.exited
        { exit_code := 1,
          stdout := ["kvdb: Get key 'a' not found, no timestamps. FAIL\n".toList],
          stderr := [], file := some [],
          ops := [Op.open_db, Op.create_table, Op.get_key_ts, Op.close_db] }) := by
  decide

/-- Sample runs of `main`, with every text as the source prints it: the successful `set`,
`get` and `ts` of key `a`, and the failures of the open, of the schema statement and of a
refused `set`, each of which writes its one text to `stderr` and nothing to `stdout`. -/
theorem sample_runs :
    main (world_ok none clock_a) ["kvdb".toList, "set".toList, "a".toList, "1".toList] =
      some (Ending.exited
        { exit_code := 0, stdout := ["kvdb: Set key 'a' value to '1'. SUCCESS\n".toList],
          stderr := [], file := some [row_a1],
          ops := [Op.open_db, Op.create_table, Op.set_key, Op.close_db] }) ∧
    main (world_ok (some [row_a1]) clock_b) ["kvdb".toList, "get".toList, "a".toList] =
      some (Ending.exited
        { exit_code := 0, stdout := ["kvdb: Get key 'a' returned value '1'. SUCCESS\n".toList],
          stderr := [], file := some [row_a1],
          ops := [Op.open_db, Op.create_table, Op.get_key_value, Op.close_db] }) ∧
    main (world_ok (some [row_a1]) clock_b)
        ["kvdb".toList, "set".toList, "a".toList, "2".toList] =
      some (Ending.exited
        { exit_code := 0, stdout := ["kvdb: Set key 'a' value to '2'. SUCCESS\n".toList],
          stderr := [],
          file := some [row_a2],
          ops := [Op.open_db, Op.create_table, Op.set_key, Op.close_db] }) ∧
    main (world_ok (some [row_a2]) clock_b)
        ["kvdb".toList, "ts".toList, "a".toList] =
      some (Ending.exited
        { exit_code := 0,
          stdout := [("kvdb: Get key 'a' timestamps: It was first set at " ++
            "2024-01-02 03:04:05.678 and last at 2024-01-02 03:04:05.679. SUCCESS\n").toList],
          stderr := [],
          file := some [row_a2],
          ops := [Op.open_db, Op.create_table, Op.get_key_ts, Op.close_db] }) ∧
    main { file := none, open_ok := false, create_ok := true, env := env_ok clock_a }
        ["kvdb".toList, "get".toList, "a".toList] =
      some (Ending.exited
        { exit_code := 1, stdout := [],
          stderr := ["kvdb: Could not open database 'kvdb.db'\n".toList],
          file := none, ops := [Op.open_db] }) ∧
    main { file := none, open_ok := true, create_ok := false, env := env_ok clock_a }
        ["kvdb".toList, "get".toList, "a".toList] =
      some (Ending.exited
        { exit_code := 1, stdout := [],
          stderr := ["kvdb: Could not create/access table in database 'kvdb.db'\n".toList],
          file := none, ops := [Op.open_db, Op.create_table, Op.close_db] }) ∧
    main { file := some [], open_ok := true, create_ok := true, env := env_prepare_fails }
        ["kvdb".toList, "set".toList, "a".toList, "1".toList] =
      some (Ending.exited
        { exit_code := 1, stdout := [],
          stderr := ["kvdb: Set key 'a' value to '1'. FAIL\n".toList],
          file := some [], ops := [Op.open_db, Op.create_table, Op.set_key, Op.close_db] }) := by
  decide

end Kvdb
